import Mathlib

/-!
Verification model of the scraping pipeline in src/app/api/scrape/route.ts.

The TypeScript source is shallowly embedded: pure helpers (parsePrice,
parsePropertyDetails, parseJsonLd, isBlocked) become executable Lean
functions; the per-platform extractors become functions over an abstract
page value that records, for every CSS selector expression the source
queries, the text the query returns; the route handler POST becomes a
function of the URL and of the outcomes of the individual tier attempts
(the network fetch itself is external input).  JavaScript numbers are
modelled as rationals; NaN, where it can arise, is modelled as Option
none and noted at the definition.  JavaScript regular expressions are
compiled to a small character-level pattern type executed by a greedy
backtracking matcher; group quantifiers that the matcher cannot express
are handled by explicit scanners whose equivalence to the greedy regex
semantics is argued in comments at the definition.
-/

/-- Characters matched by the JavaScript regex class \s (ASCII whitespace
plus the no-break space; rarer Unicode space characters are not modelled). -/
def jsWsC (c : Char) : Bool :=
  c == ' ' || c == '\t' || c == '\n' || c == '\r' || c == '\x0b' || c == '\x0c' || c == ' '

/-- The regex class [\d,]. -/
def dcC (c : Char) : Bool := c.isDigit || c == ','

/-- The regex class [\d,.]. -/
def dcdC (c : Char) : Bool := c.isDigit || c == ',' || c == '.'

/-- needle occurs at the head of hay. -/
def listStarts : List Char → List Char → Bool
  | [], _ => true
  | _ :: _, [] => false
  | a :: as, b :: bs => a == b && listStarts as bs

/-- needle occurs somewhere in hay. -/
def listHasSub (needle : List Char) : List Char → Bool
  | [] => needle.isEmpty
  | c :: cs => listStarts needle (c :: cs) || listHasSub needle cs

/-- JavaScript String.prototype.includes. -/
def strIncludes (hay needle : String) : Bool := listHasSub needle.data hay.data

/-- JavaScript String.prototype.indexOf, as an optional position. -/
def listIndexOfSub (needle : List Char) : List Char → Option Nat
  | [] => if needle.isEmpty then some 0 else none
  | c :: cs =>
    if listStarts needle (c :: cs) then some 0
    else (listIndexOfSub needle cs).map (· + 1)

/-- JavaScript String.prototype.toLowerCase, character by character (the
page phrases and type vocabulary are ASCII). -/
def strToLower (s : String) : String := String.mk (s.data.map Char.toLower)

/-- JavaScript String.prototype.trim (whitespace includes the no-break space). -/
def strTrim (s : String) : String :=
  String.mk (((s.data.dropWhile jsWsC).reverse.dropWhile jsWsC).reverse)

/-- JavaScript a || b on strings: the empty string is the only falsy string. -/
def orS (a b : String) : String := if a = "" then b else a

/-- Value of a list of decimal digit characters. -/
def natDigits (ds : List Char) : Nat := ds.foldl (fun n c => n * 10 + (c.toNat - 48)) 0

/-- parsePrice (route.ts 646-649): strip every non-digit character and
parseInt the rest; an input with no digits gives 0 (parseInt NaN || 0). -/
def parsePrice (priceText : String) : ℚ :=
  (natDigits (priceText.data.filter Char.isDigit) : ℚ)

/-! ### A small greedy backtracking regex engine

Patterns are sequences of single-character items, each a character
predicate with a quantifier.  reMatch explores exactly the greedy
depth-first order of the JavaScript engine for such patterns: a
quantified item first tries to consume, and falls back to the shorter
alternative only when the remainder of the pattern fails.  Alternation
(a|b|c) is expressed by listing the expanded sequential patterns in the
same order the JavaScript engine tries them. -/

inductive RQuant where
  | one
  | opt
  | star

structure RItem where
  test : Char → Bool
  q : RQuant

/-- Fuel-indexed matcher: every recursive call consumes either a pattern
item or an input character, so pattern length plus input length bounds
the recursion depth and the fuel in reMatch below is never exhausted.
The fuel keeps the recursion structural so that the definition reduces
inside the kernel. -/
def reMatchF : Nat → List RItem → List Char → Option (List Char)
  | 0, _, _ => none
  | fuel + 1, ps, s =>
    match ps, s with
    | [], s => some s
    | ⟨t, .one⟩ :: ps, c :: cs => if t c then reMatchF fuel ps cs else none
    | ⟨_, .one⟩ :: _, [] => none
    | ⟨t, .opt⟩ :: ps, c :: cs =>
      (if t c then reMatchF fuel ps cs else none).orElse
        (fun _ => reMatchF fuel ps (c :: cs))
    | ⟨_, .opt⟩ :: ps, [] => reMatchF fuel ps []
    | ⟨t, .star⟩ :: ps, c :: cs =>
      (if t c then reMatchF fuel (⟨t, .star⟩ :: ps) cs else none).orElse
        (fun _ => reMatchF fuel ps (c :: cs))
    | ⟨_, .star⟩ :: ps, [] => reMatchF fuel ps []

/-- Match a pattern at the head of the input, returning the remainder of
the input after the matched text (greedy, with backtracking). -/
def reMatch (ps : List RItem) (s : List Char) : Option (List Char) :=
  reMatchF (ps.length + s.length + 1) ps s

/-- Try the alternative patterns in order at the head of the input and
return the matched text of the first that succeeds. -/
def tryAll (pats : List (List RItem)) (s : List Char) : Option (List Char) :=
  match pats with
  | [] => none
  | p :: rest =>
    match reMatch p s with
    | some r => some (s.take (s.length - r.length))
    | none => tryAll rest s

/-- Leftmost match: scan start positions left to right (as the JavaScript
engine does for String.prototype.match without the g flag) and return the
matched text of the first position at which some alternative matches. -/
def reFindA (pats : List (List RItem)) : List Char → Option (List Char)
  | [] => tryAll pats []
  | c :: cs =>
    match tryAll pats (c :: cs) with
    | some m => some m
    | none => reFindA pats cs

/-- A case-insensitive literal character (for patterns carrying the i flag). -/
def rLit (c : Char) : RItem := ⟨fun x => x.toLower == c.toLower, .one⟩

/-- A case-insensitive literal string. -/
def litCI (s : String) : List RItem := s.data.map rLit

def rOne (t : Char → Bool) : RItem := ⟨t, .one⟩
def rOpt (t : Char → Bool) : RItem := ⟨t, .opt⟩
def rStar (t : Char → Bool) : RItem := ⟨t, .star⟩
/-- The quantifier + expanded as one occurrence followed by star. -/
def rPlus (t : Char → Bool) : List RItem := [rOne t, rStar t]

/-! ### parsePropertyDetails (route.ts 651-661)

The three regexes are
  /(\d+)\s*(?:bed|br|bedroom)/i
  /(\d+(?:\.\d+)?)\s*(?:bath|ba|bathroom)/i
  /(\d+(?:,\d+)*)\s*(?:sqft|sq\.?\s*ft|square\s*feet)/i
For these patterns the captured number is deterministic: giving back a
digit (or a fractional or comma group) would place the following \s*
plus a letter literal on a digit, a dot or a comma, which cannot match,
so the greedy maximal runs are the only viable splits and the capture is
the maximal number token at the match start. -/

/-- Alternatives of /(\d+)\s*(?:bed|br|bedroom)/i in engine order. -/
def bedsPats : List (List RItem) :=
  let core := rPlus Char.isDigit ++ [rStar jsWsC]
  [core ++ litCI "bed", core ++ litCI "br", core ++ litCI "bedroom"]

/-- Alternatives of /(\d+(?:\.\d+)?)\s*(?:bath|ba|bathroom)/i in engine
order: the optional fractional group is greedy, so the variants with the
fraction come first. -/
def bathsPats : List (List RItem) :=
  let ip := rPlus Char.isDigit
  let frac := [rOne (· == '.')] ++ rPlus Char.isDigit
  let tails := [litCI "bath", litCI "ba", litCI "bathroom"]
  (tails.map fun t => ip ++ frac ++ [rStar jsWsC] ++ t) ++
    (tails.map fun t => ip ++ [rStar jsWsC] ++ t)

/-- parseInt of the leading digit run of a matched text (capture group 1
of the beds pattern). -/
def capNat (m : List Char) : ℚ := (natDigits (m.takeWhile Char.isDigit) : ℚ)

/-- parseFloat of the leading decimal token of a matched text (capture
group 1 of the baths pattern).  Finite decimal literals are modelled
exactly as rationals. -/
def capDecimal (m : List Char) : ℚ :=
  let ip := m.takeWhile Char.isDigit
  let rest := m.drop ip.length
  match rest with
  | '.' :: r2 =>
    let fp := r2.takeWhile Char.isDigit
    mkRat (natDigits ip * 10 ^ fp.length + natDigits fp) (10 ^ fp.length)
  | _ => (natDigits ip : ℚ)

/-- Consume the (?:,\d+)* groups after the leading digits of the sqft
number token (greedy maximal; a shorter choice would place the following
\s* plus a letter on a comma or digit, which cannot match). -/
def commaGroupsF : Nat → List Char → List Char → List Char × List Char
  | 0, acc, s => (acc, s)
  | fuel + 1, acc, s =>
    match s with
    | ',' :: t =>
      let ds := t.takeWhile Char.isDigit
      if ds.isEmpty then (acc, s)
      else commaGroupsF fuel (acc ++ ',' :: ds) (t.drop ds.length)
    | _ => (acc, s)

/-- Wrapper with enough fuel: every iteration consumes at least two
characters of the input. -/
def commaGroups (acc : List Char) (s : List Char) : List Char × List Char :=
  commaGroupsF (s.length + 1) acc s

/-- The suffix alternatives (?:sqft|sq\.?\s*ft|square\s*feet) of the area
pattern, in engine order. -/
def sqftTailPats : List (List RItem) :=
  [litCI "sqft",
   litCI "sq" ++ [rOpt (· == '.'), rStar jsWsC] ++ litCI "ft",
   litCI "square" ++ [rStar jsWsC] ++ litCI "feet"]

/-- Leftmost match of /(\d+(?:,\d+)*)\s*(?:sqft|sq\.?\s*ft|square\s*feet)/i,
returning the captured number token (digits and commas). -/
def sqftScan : List Char → Option (List Char)
  | [] => none
  | c :: cs =>
    if c.isDigit then
      let ds := (c :: cs).takeWhile Char.isDigit
      let (tok, rest) := commaGroups ds ((c :: cs).drop ds.length)
      if (tryAll sqftTailPats (rest.dropWhile jsWsC)).isSome then some tok
      else sqftScan cs
    else sqftScan cs

structure Details where
  beds : ℚ
  baths : ℚ
  sqft : ℚ
deriving DecidableEq, Repr

/-- parsePropertyDetails (route.ts 651-661): beds, baths and sqft from
free-form specification text, each defaulting to 0 when its pattern does
not match. -/
def parsePropertyDetails (detailsText : String) : Details :=
  let cs := detailsText.data
  { beds := match reFindA bedsPats cs with
      | some m => capNat m
      | none => 0
    baths := match reFindA bathsPats cs with
      | some m => capDecimal m
      | none => 0
    sqft := match sqftScan cs with
      | some tok => (natDigits (tok.filter fun c => !(c == ',')) : ℚ)
      | none => 0 }

/-! ### The JSON-LD structured-data extractor (route.ts 77-125)

The JSON value already parsed from the text of one
script[type="application/ld+json"] element is modelled by Jval; a script
whose text fails JSON.parse is modelled as none (the catch at route.ts
118 swallows the error).  JavaScript numbers are rationals here. -/

inductive Jval where
  | null
  | bool (b : Bool)
  | num (q : ℚ)
  | str (s : String)
  | arr (xs : List Jval)
  | obj (fields : List (String × Jval))
deriving Repr

/-- JavaScript truthiness of a defined value. -/
def truthy : Jval → Bool
  | .null => false
  | .bool b => b
  | .num q => !(q == 0)
  | .str s => !(s == "")
  | .arr _ => true
  | .obj _ => true

/-- Property access o[k]; none models undefined.  JSON.parse keeps the
last of duplicate keys, hence the reversed lookup. -/
def jsGet : Jval → String → Option Jval
  | .obj fs, k => fs.reverse.lookup k
  | _, _ => none

/-- JavaScript a || b on possibly-undefined values. -/
def jsOrV (a b : Option Jval) : Option Jval :=
  match a with
  | some v => if truthy v then some v else b
  | none => b

/-- Depth-indexed String(x); the depth index keeps the recursion into
array elements structural.  Array.prototype.join renders null elements
as empty strings; rationals with denominator 1 print as integers, other
rationals cannot arise from JSON and print approximately. -/
def jsToStringD : Nat → Jval → String
  | _, .null => "null"
  | _, .bool b => if b then "true" else "false"
  | _, .num q => if q.den == 1 then toString q.num else toString q
  | _, .str s => s
  | 0, .arr _ => ""
  | d + 1, .arr xs =>
    String.intercalate "," (xs.map fun x =>
      match x with
      | .null => ""
      | x' => jsToStringD d x')
  | _, .obj _ => "[object Object]"

/-- JavaScript String(x).  Listing metadata nests arrays at most a
couple of levels deep; eight levels are far more than enough. -/
def jsToString (v : Jval) : String := jsToStringD 8 v

/-- Number("...") for plain decimal literals (optionally signed, optional
fractional part); none models NaN.  Exponents, hex and Infinity are not
modelled; they do not occur in listing metadata. -/
def strToNumQ (s : String) : Option ℚ :=
  let t := strTrim s
  if t = "" then some 0
  else
    let (sign, rest) : Int × List Char :=
      match t.data with
      | '-' :: r => (-1, r)
      | '+' :: r => (1, r)
      | r => (1, r)
    let ip := rest.takeWhile Char.isDigit
    let r2 := rest.drop ip.length
    match r2 with
    | [] => if ip.isEmpty then none else some (mkRat (sign * natDigits ip) 1)
    | '.' :: fr =>
      let fp := fr.takeWhile Char.isDigit
      if !(fr.drop fp.length).isEmpty then none
      else if ip.isEmpty && fp.isEmpty then none
      else some (mkRat (sign * (natDigits ip * 10 ^ fp.length + natDigits fp)) (10 ^ fp.length))
    | _ => none

/-- Number(v) for defined values; none models NaN. -/
def jsNumberOpt : Jval → Option ℚ
  | .null => some 0
  | .bool b => some (if b then 1 else 0)
  | .num q => some q
  | .str s => strToNumQ s
  | .arr xs => strToNumQ (jsToString (.arr xs))
  | .obj _ => none

/-- Number(v) || 0 where v may be undefined: NaN and 0 both give 0. -/
def jsNumZ : Option Jval → ℚ
  | none => 0
  | some j => (jsNumberOpt j).getD 0

/-- The partial listing record a matching snippet yields (route.ts
107-114); every field is set, with the defaults of the source. -/
structure LdRec where
  price : ℚ
  address : String
  beds : ℚ
  baths : ℚ
  sqft : ℚ
  propertyType : String
deriving DecidableEq, Repr

/-- The known real-estate type vocabulary test (route.ts 88-95). -/
def knownTypeHit (known : String) : Bool :=
  strIncludes known "house" || strIncludes known "singlefamilyresidence" ||
  strIncludes known "apartment" || strIncludes known "product" ||
  strIncludes known "place" || strIncludes known "realestatelisting"

/-- Extraction from one candidate item (route.ts 85-116); none when the
item has no truthy @type or its type misses the vocabulary. -/
def ldOfItem (item : Jval) : Option LdRec :=
  match jsGet item "@type" with
  | none => none
  | some t =>
    if !truthy t then none
    else
      let known := strToLower (match t with
        | .arr xs => String.intercalate "," (xs.map jsToString)
        | t' => jsToString t')
      if !knownTypeHit known then none
      else
        let offers := (jsOrV (jsGet item "offers") (jsGet item "aggregateOffer")).getD (.obj [])
        let io := jsGet item "itemOffered"
        let ioAddr : Option Jval :=
          match io with
          | some v => if truthy v then jsGet v "address" else some v
          | none => none
        let addressObj := (jsOrV (jsOrV (jsGet item "address") ioAddr) (some (.obj []))).getD (.obj [])
        let d := (jsOrV io (some item)).getD item
        let priceVal := jsOrV (jsGet offers "price") (jsOrV (jsGet offers "lowPrice") (jsGet item "price"))
        let bedrooms := (jsOrV (jsOrV (jsGet d "numberOfRooms") (jsGet d "bedrooms")) (some (.num 0))).getD (.num 0)
        let bathrooms := (jsOrV (jsOrV (jsGet d "numberOfBathroomsTotal") (jsGet d "bathrooms")) (some (.num 0))).getD (.num 0)
        let fsv := jsGet d "floorSize"
        let inner : Option Jval :=
          match fsv with
          | some v => if truthy v then jsOrV (jsGet v "value") (some v) else some v
          | none => none
        let floorSize := (jsOrV (jsOrV inner (jsGet d "sqft")) (some (.num 0))).getD (.num 0)
        let pt := (jsOrV (jsOrV (jsGet d "@type") (jsGet item "category")) (some (.str "Property"))).getD (.str "Property")
        let addrParts := [jsGet addressObj "streetAddress", jsGet addressObj "addressLocality",
                          jsGet addressObj "addressRegion", jsGet addressObj "postalCode"]
        let kept := addrParts.filterMap fun o =>
          match o with
          | some v => if truthy v then some (jsToString v) else none
          | none => none
        some { price := (match priceVal with
                | some (.str s) => parsePrice s
                | v => jsNumZ v)
               address := String.intercalate ", " kept
               beds := jsNumZ (some bedrooms)
               baths := jsNumZ (some bathrooms)
               sqft := (match floorSize with
                | .str s => (natDigits (s.data.filter Char.isDigit) : ℚ)
                | v => jsNumZ (some v))
               propertyType := jsToString pt }

/-- The collection loop over the candidates of one script (route.ts
84-117).  A null candidate aborts the remaining candidates of this
script: accessing a property of null throws inside the try block, and
the catch keeps what was already pushed. -/
def collectCands : List Jval → List LdRec
  | [] => []
  | .null :: _ => []
  | item :: rest =>
    match ldOfItem item with
    | some r => r :: collectCands rest
    | none => collectCands rest

/-- One script tag (route.ts 79-121): parse failure yields nothing, an
array value is the candidate list, anything else a single candidate. -/
def ldOfScript : Option Jval → List LdRec
  | none => []
  | some j =>
    let candidates := match j with
      | .arr xs => xs
      | j' => [j']
    collectCands candidates

/-- parseJsonLd (route.ts 77-125): the first snippet record whose price
is truthy and positive or whose address is non-empty; none models the
empty-object result. -/
def parseJsonLd (scripts : List (Option Jval)) : Option LdRec :=
  let results := scripts.flatMap ldOfScript
  results.find? fun r =>
    (!(r.price == 0) && decide (0 < r.price)) ||
      (!(r.address == "") && decide (0 < r.address.length))

/-! ### isBlocked (route.ts 35-48) -/

/-- The phrase disjunction of isBlocked (route.ts 40-46) over the
lower-cased body; cf-chl is the reverse-proxy challenge marker. -/
def containsBlockPhrase (lower : String) : Bool :=
  strIncludes lower "captcha" || strIncludes lower "robot check" ||
  strIncludes lower "verify you are a human" || strIncludes lower "access denied" ||
  strIncludes lower "temporarily unavailable" || strIncludes lower "request blocked" ||
  strIncludes lower "cf-chl"

/-- isBlocked (route.ts 35-48).  The optional status mirrors the optional
parameter; status && (status === 403 || status === 429) is truthy exactly
when the status is present, non-zero and one of 403, 429. -/
def isBlocked (html : String) (status : Option Nat) : Bool :=
  if html = "" then true
  else if (match status with
    | some s => !(s == 0) && (s == 403 || s == 429)
    | none => false) then true
  else containsBlockPhrase (strToLower html)

/-! ### Pages and listing records

A Page abstracts one fetched (or rendered) document: the parse results
of its application/ld+json scripts in document order, the text each
cheerio/DOM selector query returns (query takes the selector expression
as written in the source; a trailing :first marks .first(), :eq(1) marks
.eq(1)), the body text, and the element list of the comp-anchor query
of the Redfin extractor as (href attribute, text) pairs. -/

structure Page where
  ldScripts : List (Option Jval)
  query : String → String
  bodyText : String
  homeAnchors : List (Option String × String)

/-- A comparable-listing entry (route.ts 549-564).  The source never sets
comp.address; price, beds, baths and sqft may be NaN in the source when a
captured token holds no digit, modelled here as none. -/
structure Comp where
  price : Option ℚ
  beds : Option ℚ := none
  baths : Option ℚ := none
  sqft : Option ℚ := none
  url : Option String := none
deriving DecidableEq, Repr

/-- PropertyData (types/property.ts) plus the extra fields the Redfin
extractor returns (route.ts 571-585); absent fields are none. -/
structure PropertyData where
  price : ℚ
  address : String
  beds : ℚ
  baths : ℚ
  sqft : ℚ
  propertyType : String
  url : String
  status : Option String := none
  redfinEstimate : Option ℚ := none
  redfinEstimateChangeText : Option String := none
  lastSoldPrice : Option ℚ := none
  lastSoldDate : Option String := none
  comps : List Comp := []
deriving DecidableEq, Repr

/-! ### scrapeZillow (route.ts 205-281) -/

/-- The price selector chain (route.ts 232-237). -/
def zillowPriceText (p : Page) : String :=
  orS (p.query "[data-testid=\"price\"]")
    (orS (p.query ".ds-price")
      (orS (p.query "[data-test=\"property-price\"]")
        (orS (p.query ".price")
          (orS (p.query "[class*=\"price\"]")
            (p.query "span:contains(\"$\"):first")))))

/-- route.ts 238: fromJsonLd.price && fromJsonLd.price > 0 ? fromJsonLd.price
: parsePrice(priceText). -/
def zillowPriceVal (p : Page) : ℚ :=
  match parseJsonLd p.ldScripts with
  | some r => if 0 < r.price then r.price else parsePrice (zillowPriceText p)
  | none => parsePrice (zillowPriceText p)

/-- The address chain (route.ts 241-246); an undefined fromJsonLd.address
is the empty string to orS, exactly as falsy undefined behaves under ||. -/
def zillowAddressVal (p : Page) : String :=
  orS (match parseJsonLd p.ldScripts with | some r => r.address | none => "")
    (orS (p.query "[data-testid=\"address\"]")
      (orS (p.query ".ds-address-container")
        (orS (p.query ".address")
          (orS (p.query "h1:first")
            (orS (p.query "[class*=\"address\"]") "Address not found")))))

/-- The beds/baths/sqft text chain (route.ts 249-253). -/
def zillowBedsText (p : Page) : String :=
  orS (p.query "[data-testid=\"bed-bath-beyond\"]")
    (orS (p.query ".ds-bed-bath-living-area")
      (orS (p.query ".bed-bath-beyond")
        (orS (p.query "[class*=\"bed\"]") (p.query "[class*=\"bath\"]"))))

/-- route.ts 255: fromJsonLd.beds ?? parsePropertyDetails(bedsText).beds —
the nullish coalescing falls back only when no structured record matched. -/
def zillowBedsVal (p : Page) : ℚ :=
  match parseJsonLd p.ldScripts with
  | some r => r.beds
  | none => (parsePropertyDetails (zillowBedsText p)).beds

/-- route.ts 256. -/
def zillowBathsVal (p : Page) : ℚ :=
  match parseJsonLd p.ldScripts with
  | some r => r.baths
  | none => (parsePropertyDetails (zillowBedsText p)).baths

/-- route.ts 257. -/
def zillowSqftVal (p : Page) : ℚ :=
  match parseJsonLd p.ldScripts with
  | some r => r.sqft
  | none => (parsePropertyDetails (zillowBedsText p)).sqft

/-- The property-type chain (route.ts 261-265). -/
def zillowTypeVal (p : Page) : String :=
  orS (match parseJsonLd p.ldScripts with | some r => r.propertyType | none => "")
    (orS (p.query "[data-testid=\"property-type\"]")
      (orS (p.query ".ds-property-type")
        (orS (p.query ".property-type")
          (orS (p.query "[class*=\"property-type\"]") "Property type not found"))))

/-- scrapeZillow after the fetch (route.ts 226-280): assembly and the
insufficient-data check of lines 268-270. -/
def scrapeZillow (url : String) (p : Page) : Except String PropertyData :=
  if zillowPriceVal p = 0 ∨ zillowAddressVal p = "Address not found" then
    .error "Unable to extract property data. Zillow may be blocking requests."
  else
    .ok { price := zillowPriceVal p
          address := strTrim (zillowAddressVal p)
          beds := zillowBedsVal p
          baths := zillowBathsVal p
          sqft := zillowSqftVal p
          propertyType := strTrim (zillowTypeVal p)
          url := url }

/-! ### scrapeZillowAlternative (route.ts 284-345) -/

/-- The alternative price chain (route.ts 303-308). -/
def zillowAltPriceText (p : Page) : String :=
  orS (p.query "span[data-testid=\"price\"]")
    (orS (p.query ".ds-price")
      (orS (p.query "h3[data-testid=\"price\"]")
        (orS (p.query ".price")
          (orS (p.query "span:contains(\"$\"):first")
            (p.query "[class*=\"price\"]:first")))))

/-- route.ts 309. -/
def zillowAltPriceVal (p : Page) : ℚ :=
  match parseJsonLd p.ldScripts with
  | some r => if 0 < r.price then r.price else parsePrice (zillowAltPriceText p)
  | none => parsePrice (zillowAltPriceText p)

/-- The alternative address chain (route.ts 311-315). -/
def zillowAltAddressVal (p : Page) : String :=
  orS (match parseJsonLd p.ldScripts with | some r => r.address | none => "")
    (orS (p.query "h1[data-testid=\"address\"]")
      (orS (p.query ".ds-address-container")
        (orS (p.query "h1:first")
          (orS (p.query ".address") "Address not found"))))

/-- The alternative beds text chain (route.ts 317-320). -/
def zillowAltBedsText (p : Page) : String :=
  orS (p.query "[data-testid=\"bed-bath-beyond\"]")
    (orS (p.query ".ds-bed-bath-living-area")
      (orS (p.query ".bed-bath-beyond") (p.query "[class*=\"bed\"]")))

/-- route.ts 322. -/
def zillowAltBedsVal (p : Page) : ℚ :=
  match parseJsonLd p.ldScripts with
  | some r => r.beds
  | none => (parsePropertyDetails (zillowAltBedsText p)).beds

/-- route.ts 323. -/
def zillowAltBathsVal (p : Page) : ℚ :=
  match parseJsonLd p.ldScripts with
  | some r => r.baths
  | none => (parsePropertyDetails (zillowAltBedsText p)).baths

/-- route.ts 324. -/
def zillowAltSqftVal (p : Page) : ℚ :=
  match parseJsonLd p.ldScripts with
  | some r => r.sqft
  | none => (parsePropertyDetails (zillowAltBedsText p)).sqft

/-- The alternative property-type chain (route.ts 327-330). -/
def zillowAltTypeVal (p : Page) : String :=
  orS (match parseJsonLd p.ldScripts with | some r => r.propertyType | none => "")
    (orS (p.query "[data-testid=\"property-type\"]")
      (orS (p.query ".ds-property-type")
        (orS (p.query ".property-type") "Property type not found")))

/-- scrapeZillowAlternative after the fetch (route.ts 297-344), check at
lines 332-334. -/
def scrapeZillowAlternative (url : String) (p : Page) : Except String PropertyData :=
  if zillowAltPriceVal p = 0 ∨ zillowAltAddressVal p = "Address not found" then
    .error "Alternative Zillow scraping also failed - anti-scraping measures detected"
  else
    .ok { price := zillowAltPriceVal p
          address := strTrim (zillowAltAddressVal p)
          beds := zillowAltBedsVal p
          baths := zillowAltBathsVal p
          sqft := zillowAltSqftVal p
          propertyType := strTrim (zillowAltTypeVal p)
          url := url }

/-! ### scrapeHomes (route.ts 588-644) -/

/-- The price chain (route.ts 604-607). -/
def homesPriceText (p : Page) : String :=
  orS (p.query ".price")
    (orS (p.query "[data-testid=\"price\"]")
      (orS (p.query "[class*=\"price\"]") (p.query "span:contains(\"$\"):first")))

/-- route.ts 608. -/
def homesPriceVal (p : Page) : ℚ :=
  match parseJsonLd p.ldScripts with
  | some r => if 0 < r.price then r.price else parsePrice (homesPriceText p)
  | none => parsePrice (homesPriceText p)

/-- The address chain (route.ts 611-614). -/
def homesAddressVal (p : Page) : String :=
  orS (match parseJsonLd p.ldScripts with | some r => r.address | none => "")
    (orS (p.query ".address")
      (orS (p.query "[data-testid=\"address\"]")
        (orS (p.query "h1:first") "Address not found")))

/-- The beds text chain (route.ts 617-619). -/
def homesBedsText (p : Page) : String :=
  orS (p.query ".property-details")
    (orS (p.query ".beds-baths-sqft") (p.query "[class*=\"bed\"]"))

/-- route.ts 621. -/
def homesBedsVal (p : Page) : ℚ :=
  match parseJsonLd p.ldScripts with
  | some r => r.beds
  | none => (parsePropertyDetails (homesBedsText p)).beds

/-- route.ts 622. -/
def homesBathsVal (p : Page) : ℚ :=
  match parseJsonLd p.ldScripts with
  | some r => r.baths
  | none => (parsePropertyDetails (homesBedsText p)).baths

/-- route.ts 623. -/
def homesSqftVal (p : Page) : ℚ :=
  match parseJsonLd p.ldScripts with
  | some r => r.sqft
  | none => (parsePropertyDetails (homesBedsText p)).sqft

/-- The property-type chain (route.ts 627-629). -/
def homesTypeVal (p : Page) : String :=
  orS (match parseJsonLd p.ldScripts with | some r => r.propertyType | none => "")
    (orS (p.query ".property-type")
      (orS (p.query "[class*=\"property-type\"]") "Property type not found"))

/-- scrapeHomes after the fetch (route.ts 598-643), check at lines 631-633. -/
def scrapeHomes (url : String) (p : Page) : Except String PropertyData :=
  if homesPriceVal p = 0 ∨ homesAddressVal p = "Address not found" then
    .error "Unable to extract property data from Homes.com."
  else
    .ok { price := homesPriceVal p
          address := strTrim (homesAddressVal p)
          beds := homesBedsVal p
          baths := homesBathsVal p
          sqft := homesSqftVal p
          propertyType := strTrim (homesTypeVal p)
          url := url }

/-! ### scrapeRedfin (route.ts 472-586) -/

/-- route.ts 484: the body text with runs of whitespace (including the
no-break space) collapsed to single spaces. -/
def collapseWsAux : Bool → List Char → List Char
  | _, [] => []
  | prevWs, c :: cs =>
    if jsWsC c then
      if prevWs then collapseWsAux true cs
      else ' ' :: collapseWsAux true cs
    else c :: collapseWsAux false cs

/-- replace(/[ \s]+/g, ' ') followed by trim (route.ts 484). -/
def normalizeWs (s : String) : String :=
  strTrim (String.mk (collapseWsAux false s.data))

/-- The normalised page text (route.ts 484). -/
def redfinPageText (p : Page) : String := normalizeWs p.bodyText

/-- The price selector chain before the estimate substitution
(route.ts 489-492). -/
def redfinPriceText0 (p : Page) : String :=
  orS (p.query ".home-main-stats .statsValue:first")
    (orS (p.query ".price")
      (orS (p.query "[class*=\"price\"]") (p.query "span:contains(\"$\"):first")))

/-- /Redfin Estimate\s*\$([\d,]+)/i (route.ts 494 and 497). -/
def estimatePat : List RItem :=
  litCI "Redfin Estimate" ++ [rStar jsWsC, rOne (· == '$')] ++ rPlus dcC

/-- The captured digits-and-commas group of the estimate regex: the
trailing [\d,]+ run of the matched text (greedy maximal — the character
before it is the dollar sign, which is outside the class). -/
def estimateCapture (text : String) : Option String :=
  (reFindA [estimatePat] text.data).map fun m =>
    String.mk ((m.reverse.takeWhile dcC).reverse)

/-- The price text after the estimate substitution (route.ts 493-496):
when the selector text is empty or parses to 0 and the page text is
non-empty, a Redfin Estimate match replaces it by a dollar string. -/
def redfinPriceText (p : Page) : String :=
  let t := redfinPriceText0 p
  if (t = "" ∨ parsePrice t = 0) ∧ redfinPageText p ≠ "" then
    match estimateCapture (redfinPageText p) with
    | some cap => "$" ++ cap
    | none => t
  else t

/-- route.ts 507. -/
def redfinPriceVal (p : Page) : ℚ :=
  match parseJsonLd p.ldScripts with
  | some r => if 0 < r.price then r.price else parsePrice (redfinPriceText p)
  | none => parsePrice (redfinPriceText p)

/-- parseInt of a digits-and-commas capture with the commas removed; none
models NaN when no digit remains (route.ts 498, 546, 561). -/
def parseIntStripCommas (s : String) : Option ℚ :=
  let ds := s.data.filter fun c => !(c == ',')
  if ds.isEmpty then none else some (natDigits ds : ℚ)

/-- The redfinEstimate field as returned (route.ts 497-498 and 580): the
parsed estimate capture when the regex matched, else the structured price
or 0, with the final falsy-to-undefined coercion redfinEstimate ||
undefined. -/
def redfinEstimateVal (p : Page) : Option ℚ :=
  match estimateCapture (redfinPageText p) with
  | some cap =>
    match parseIntStripCommas cap with
    | some n => if n = 0 then none else some n
    | none => none
  | none =>
    let q : ℚ := match parseJsonLd p.ldScripts with
      | some r => r.price
      | none => 0
    if q = 0 then none else some q

/-- /\$[\d,.]+\s*(?:[MK])?\s*since\s+sold\s+in\s+[A-Za-z]+\s+\d{4}/i
(route.ts 504). -/
def changePat : List RItem :=
  [rOne (· == '$')] ++ rPlus dcdC ++
    [rStar jsWsC, rOpt (fun c => c.toLower == 'm' || c.toLower == 'k'), rStar jsWsC] ++
    litCI "since" ++ rPlus jsWsC ++ litCI "sold" ++ rPlus jsWsC ++ litCI "in" ++
    rPlus jsWsC ++ rPlus Char.isAlpha ++ rPlus jsWsC ++
    [rOne Char.isDigit, rOne Char.isDigit, rOne Char.isDigit, rOne Char.isDigit]

/-- route.ts 500-506: the trend clause found in the 300-character window
after the first exact occurrence of Redfin Estimate, trimmed. -/
def redfinChangeText (p : Page) : Option String :=
  match listIndexOfSub "Redfin Estimate".data (redfinPageText p).data with
  | none => none
  | some idx =>
    let tail := ((redfinPageText p).data.drop idx).take 300
    (reFindA [changePat] tail).map fun m => strTrim (String.mk m)

/-- /\d+\s+[^,]+,\s*[^,]+,\s*[A-Z]{2}\s*\d{5}/ (route.ts 516, no i flag). -/
def addrPat : List RItem :=
  rPlus Char.isDigit ++ rPlus jsWsC ++ rPlus (fun c => !(c == ',')) ++
    [rOne (· == ','), rStar jsWsC] ++ rPlus (fun c => !(c == ',')) ++
    [rOne (· == ','), rStar jsWsC,
     rOne (fun c => 'A' ≤ c && c ≤ 'Z'), rOne (fun c => 'A' ≤ c && c ≤ 'Z'),
     rStar jsWsC,
     rOne Char.isDigit, rOne Char.isDigit, rOne Char.isDigit, rOne Char.isDigit,
     rOne Char.isDigit]

/-- The address (route.ts 510-518): selector chain, then the full-page
regex replacement when the sentinel remained and the page text is
non-empty. -/
def redfinAddressVal (p : Page) : String :=
  let a :=
    orS (match parseJsonLd p.ldScripts with | some r => r.address | none => "")
      (orS (p.query ".street-address")
        (orS (p.query ".home-main-stats .statsValue:eq(1)")
          (orS (p.query ".address")
            (orS (p.query "h1:first") "Address not found"))))
  if a = "Address not found" ∧ redfinPageText p ≠ "" then
    match reFindA [addrPat] (redfinPageText p).data with
    | some m => String.mk m
    | none => a
  else a

/-- The beds text chain (route.ts 521-523). -/
def redfinBedsText (p : Page) : String :=
  orS (p.query ".home-main-stats")
    (orS (p.query ".bed-bath-beyond") (p.query "[class*=\"bed\"]"))

/-- /(\d+)\s*Beds?/i (route.ts 529; also the comp pattern at 556). -/
def bedsSPat : List (List RItem) :=
  [rPlus Char.isDigit ++ [rStar jsWsC] ++ litCI "bed" ++ [rOpt (fun c => c.toLower == 's')]]

/-- /(\d+(?:\.\d+)?)\s*Baths?/i (route.ts 530; also 557), fraction first. -/
def bathsSPat : List (List RItem) :=
  let ip := rPlus Char.isDigit
  let frac := [rOne (· == '.')] ++ rPlus Char.isDigit
  let tail := litCI "bath" ++ [rOpt (fun c => c.toLower == 's')]
  [ip ++ frac ++ [rStar jsWsC] ++ tail, ip ++ [rStar jsWsC] ++ tail]

/-- /([\d,]+)\s*Sq\s*Ft/i (route.ts 531; also 558); the capture is the
leading [\d,]+ run of the matched text. -/
def sqftSPat : List (List RItem) :=
  [rPlus dcC ++ [rStar jsWsC] ++ litCI "sq" ++ [rStar jsWsC] ++ litCI "ft"]

/-- The beds, baths and sqft of the Redfin record (route.ts 524-535):
nullish coalescing against the structured record, then, when all three
are 0 and the page text is non-empty, the individual page-text regexes
overwrite whichever of them match.  A sqft capture with no digit would be
NaN in the source and is modelled as 0 here. -/
def redfinDetailsVals (p : Page) : ℚ × ℚ × ℚ :=
  let parsed := parsePropertyDetails (redfinBedsText p)
  let b0 := match parseJsonLd p.ldScripts with | some r => r.beds | none => parsed.beds
  let a0 := match parseJsonLd p.ldScripts with | some r => r.baths | none => parsed.baths
  let s0 := match parseJsonLd p.ldScripts with | some r => r.sqft | none => parsed.sqft
  if (b0 = 0 ∧ a0 = 0 ∧ s0 = 0) ∧ redfinPageText p ≠ "" then
    let t := (redfinPageText p).data
    let b1 := match reFindA bedsSPat t with | some m => capNat m | none => b0
    let a1 := match reFindA bathsSPat t with | some m => capDecimal m | none => a0
    let s1 := match reFindA sqftSPat t with
      | some m => (parseIntStripCommas (String.mk (m.takeWhile dcC))).getD 0
      | none => s0
    (b1, a1, s1)
  else (b0, a0, s0)

/-- The property-type chain (route.ts 538-540). -/
def redfinTypeVal (p : Page) : String :=
  orS (match parseJsonLd p.ldScripts with | some r => r.propertyType | none => "")
    (orS (p.query ".PropertyType")
      (orS (p.query ".property-type") "Property type not found"))

/-- /OFF\s*MARKET/i (route.ts 543). -/
def offMarketPat : List RItem := litCI "off" ++ [rStar jsWsC] ++ litCI "market"

/-- /SOLD\s+([A-Z]{3}\s\d{4})\s+FOR\s+\$([\d,]+)/i (route.ts 544).  With
the i flag the class [A-Z] also matches lower case. -/
def soldPat : List RItem :=
  litCI "sold" ++ rPlus jsWsC ++
    [rOne Char.isAlpha, rOne Char.isAlpha, rOne Char.isAlpha, rOne jsWsC,
     rOne Char.isDigit, rOne Char.isDigit, rOne Char.isDigit, rOne Char.isDigit] ++
    rPlus jsWsC ++ litCI "for" ++ rPlus jsWsC ++ [rOne (· == '$')] ++ rPlus dcC

/-- The two captures of the sold regex, read off the matched text: after
the four literal characters and the whitespace run comes the eight-
character month-year group, and the trailing [\d,]+ run is the amount
(deterministic: the characters around each group are outside its class).
A parseInt that would be NaN is none. -/
def soldCaptures (text : String) : Option (String × Option ℚ) :=
  (reFindA [soldPat] text.data).map fun m =>
    let afterSold := (m.drop 4).dropWhile jsWsC
    (String.mk (afterSold.take 8),
     parseIntStripCommas (String.mk ((m.reverse.takeWhile dcC).reverse)))

/-- /\$[\d,]+/ on a comp anchor text (route.ts 553). -/
def compPricePat : List RItem := [rOne (· == '$')] ++ rPlus dcC

/-- One comp anchor (route.ts 550-564): skipped without a price match;
the comp URL is absolutised against the Redfin origin. -/
def compOfAnchor (a : Option String × String) : Option Comp :=
  let compUrl := a.1.getD ""
  let text := a.2
  match reFindA [compPricePat] text.data with
  | none => none
  | some m =>
    let priceDigits := m.filter Char.isDigit
    some { price := if priceDigits.isEmpty then none else some (natDigits priceDigits : ℚ)
           beds := (reFindA bedsSPat text.data).map capNat
           baths := (reFindA bathsSPat text.data).map capDecimal
           sqft := (reFindA sqftSPat text.data).bind fun m2 =>
             parseIntStripCommas (String.mk (m2.takeWhile dcC))
           url := some (if listStarts "http".data compUrl.data then compUrl
             else "https://www.redfin.com" ++ compUrl) }

/-- The comp list capped at six entries in document order (route.ts 584). -/
def redfinComps (p : Page) : List Comp :=
  (p.homeAnchors.filterMap compOfAnchor).take 6

/-- scrapeRedfin after the fetch (route.ts 482-585), check at lines
567-569. -/
def scrapeRedfin (url : String) (p : Page) : Except String PropertyData :=
  if redfinPriceVal p = 0 ∨ redfinAddressVal p = "Address not found" then
    .error "Unable to extract property data from Redfin."
  else
    let dv := redfinDetailsVals p
    .ok { price := redfinPriceVal p
          address := strTrim (redfinAddressVal p)
          beds := dv.1
          baths := dv.2.1
          sqft := dv.2.2
          propertyType := strTrim (redfinTypeVal p)
          url := url
          status := some (if (reFindA [offMarketPat] (redfinPageText p).data).isSome
            then "off-market" else "active")
          redfinEstimate := redfinEstimateVal p
          redfinEstimateChangeText := redfinChangeText p
          lastSoldPrice := (soldCaptures (redfinPageText p)).bind (·.2)
          lastSoldDate := (soldCaptures (redfinPageText p)).map (·.1)
          comps := redfinComps p }

/-! ### scrapeWithPuppeteer (route.ts 348-470)

The browser environment is abstracted: the outcome of puppeteer.launch,
the outcome of page.goto (a navigation error and a navigation timeout
both surface as a thrown error here), the rendered document for
page.evaluate, and window.location.href.  The viewport, user-agent and
header calls have no observable effect in the model. -/

structure PupEnv where
  launch : Except String Unit
  nav : Except String Unit
  dom : Page
  finalHref : String

/-- The result of the call together with whether the finally block closed
a launched browser (route.ts 465-469: close runs exactly when browser is
set). -/
structure PupOutcome where
  result : Except String PropertyData
  closedBrowser : Bool
deriving Repr

/-- The getText helper of the in-page routine (route.ts 391-394):
textContent trimmed, empty when the selector matches nothing. -/
def getTextQ (p : Page) (sel : String) : String := strTrim (p.query sel)

/-- The in-page price chain (route.ts 416-421); the last fallback scans
all span elements for one containing a dollar sign and takes its raw
textContent, modelled by the distinct query key span:find($). -/
def pupPriceText (p : Page) : String :=
  orS (getTextQ p "[data-testid=\"price\"]")
    (orS (getTextQ p ".ds-price")
      (orS (getTextQ p "[data-test=\"property-price\"]")
        (orS (getTextQ p ".price")
          (orS (getTextQ p "[class*=\"price\"]") (p.query "span:find($)")))))

/-- The in-page address chain (route.ts 425-430). -/
def pupAddressVal (p : Page) : String :=
  orS (getTextQ p "[data-testid=\"address\"]")
    (orS (getTextQ p ".ds-address-container")
      (orS (getTextQ p ".address")
        (orS (getTextQ p "h1")
          (orS (getTextQ p "[class*=\"address\"]") "Address not found"))))

/-- The in-page beds text chain (route.ts 432-436). -/
def pupBedsText (p : Page) : String :=
  orS (getTextQ p "[data-testid=\"bed-bath-beyond\"]")
    (orS (getTextQ p ".ds-bed-bath-living-area")
      (orS (getTextQ p ".bed-bath-beyond")
        (orS (getTextQ p "[class*=\"bed\"]") (getTextQ p "[class*=\"bath\"]"))))

/-- The in-page property-type chain (route.ts 440-444). -/
def pupTypeVal (p : Page) : String :=
  orS (getTextQ p "[data-testid=\"property-type\"]")
    (orS (getTextQ p ".ds-property-type")
      (orS (getTextQ p ".property-type")
        (orS (getTextQ p "[class*=\"property-type\"]") "Property type not found")))

/-- The record page.evaluate builds (route.ts 389-455); its in-page
parsePrice and parsePropertyDetails helpers are textually identical to
the top-level ones and are shared here. -/
def puppeteerEvaluate (p : Page) (href : String) : PropertyData :=
  let details := parsePropertyDetails (pupBedsText p)
  { price := parsePrice (pupPriceText p)
    address := strTrim (pupAddressVal p)
    beds := details.beds
    baths := details.baths
    sqft := details.sqft
    propertyType := strTrim (pupTypeVal p)
    url := href }

/-- scrapeWithPuppeteer (route.ts 348-470).  A launch failure leaves
browser unset, so the finally block closes nothing; after a successful
launch every path — navigation error or timeout, extraction failure at
lines 457-459, success — reaches the finally block with browser set and
closes it.  The catch at lines 463-464 wraps every thrown message. -/
def scrapeWithPuppeteer (env : PupEnv) : PupOutcome :=
  match env.launch with
  | .error e =>
    { result := .error ("Puppeteer scraping failed: " ++ e), closedBrowser := false }
  | .ok _ =>
    match env.nav with
    | .error e =>
      { result := .error ("Puppeteer scraping failed: " ++ e), closedBrowser := true }
    | .ok _ =>
      let d := puppeteerEvaluate env.dom env.finalHref
      if d.price = 0 ∨ d.address = "Address not found" then
        { result := .error
            "Puppeteer scraping failed: Puppeteer scraping failed - unable to extract property data"
          closedBrowser := true }
      else { result := .ok d, closedBrowser := true }

/-! ### The POST handler (route.ts 127-203)

The handler is modelled as a function of the request URL (none when the
body carries no url) and of the outcomes of the five scraper calls it
may make; each scraper call opens the network, so the returned call list
records the network activity as well as the tier order.  The error
strings of the Except values are the thrown messages, matching the
error instanceof Error ? error.message : branches. -/

inductive TierCall where
  | zillow1
  | zillow2
  | zillow3
  | redfin1
  | homes1
deriving DecidableEq, Repr

/-- ScrapeResponse (types/property.ts). -/
structure ScrapeResponse where
  success : Bool
  data : Option PropertyData := none
  error : Option String := none
deriving DecidableEq, Repr

/-- POST (route.ts 127-203): the URL-required guard, dispatch by URL
substring in source order, the nested fallback chain for Zillow
(tier 1 → alternative → puppeteer, the surfaced message quoting the
tier-1 error), and single-tier handling for Redfin and Homes. -/
def POST (url : Option String) (z1 z2 z3 r1 h1 : Except String PropertyData) :
    ScrapeResponse × List TierCall :=
  match url with
  | none => ({ success := false, error := some "URL is required" }, [])
  | some u =>
    if u = "" then ({ success := false, error := some "URL is required" }, [])
    else if strIncludes u "zillow.com" then
      match z1 with
      | .ok d => ({ success := true, data := some d }, [.zillow1])
      | .error e1 =>
        match z2 with
        | .ok d => ({ success := true, data := some d }, [.zillow1, .zillow2])
        | .error _ =>
          match z3 with
          | .ok d => ({ success := true, data := some d }, [.zillow1, .zillow2, .zillow3])
          | .error _ =>
            ({ success := false
               error := some ("Zillow anti-scraping detected. " ++ e1 ++
                 ". Try using Redfin or Homes.com instead, or try again later.") },
             [.zillow1, .zillow2, .zillow3])
    else if strIncludes u "redfin.com" then
      match r1 with
      | .ok d => ({ success := true, data := some d }, [.redfin1])
      | .error e =>
        ({ success := false, error := some ("Redfin scraping failed: " ++ e) }, [.redfin1])
    else if strIncludes u "homes.com" then
      match h1 with
      | .ok d => ({ success := true, data := some d }, [.homes1])
      | .error e =>
        ({ success := false, error := some ("Homes.com scraping failed: " ++ e) }, [.homes1])
    else
      ({ success := false,
         error := some "Unsupported URL. Please use Zillow, Redfin, or Homes.com" }, [])

/-! ### Header and delay profiles of the two Zillow tiers -/

/-- The tier-1 Zillow header profile (route.ts 207-220). -/
def zillowHeaders : List (String × String) :=
  [("User-Agent", "Mozilla/5.0 (Macintosh; Intel Mac OS X 10_15_7) AppleWebKit/537.36 (KHTML, like Gecko) Chrome/120.0.0.0 Safari/537.36"),
   ("Accept", "text/html,application/xhtml+xml,application/xml;q=0.9,image/webp,image/apng,*/*;q=0.8"),
   ("Accept-Language", "en-US,en;q=0.9"),
   ("Accept-Encoding", "gzip, deflate, br"),
   ("DNT", "1"),
   ("Connection", "keep-alive"),
   ("Upgrade-Insecure-Requests", "1"),
   ("Sec-Fetch-Dest", "document"),
   ("Sec-Fetch-Mode", "navigate"),
   ("Sec-Fetch-Site", "none"),
   ("Cache-Control", "max-age=0"),
   ("Referer", "https://www.google.com/")]

/-- The tier-2 Zillow header profile (route.ts 285-292). -/
def zillowAlternativeHeaders : List (String × String) :=
  [("User-Agent", "Mozilla/5.0 (Windows NT 10.0; Win64; x64) AppleWebKit/537.36 (KHTML, like Gecko) Chrome/119.0.0.0 Safari/537.36"),
   ("Accept", "text/html,application/xhtml+xml,application/xml;q=0.9,*/*;q=0.8"),
   ("Accept-Language", "en-US,en;q=0.5"),
   ("Accept-Encoding", "gzip, deflate"),
   ("Connection", "keep-alive"),
   ("Upgrade-Insecure-Requests", "1")]

/-- The pre-fetch jitter window of tier 1 in milliseconds (route.ts 223:
Math.random() * 2000 + 1000). -/
def zillowDelayWindow : Nat × Nat := (1000, 3000)

/-- The pre-fetch jitter window of tier 2 in milliseconds (route.ts 295:
Math.random() * 3000 + 2000). -/
def zillowAlternativeDelayWindow : Nat × Nat := (2000, 5000)

/-! ### Concrete inputs used by the theorems below -/

/-- The snippet of the structured-data test (spec section 8): a
SingleFamilyResidence with offers.price 500000 and the four address
sub-fields. -/
def c6Snippet : Jval :=
  .obj [("@type", .str "SingleFamilyResidence"),
        ("offers", .obj [("price", .num 500000)]),
        ("address", .obj [("streetAddress", .str "1 Main St"),
                          ("addressLocality", .str "Springfield"),
                          ("addressRegion", .str "IL"),
                          ("postalCode", .str "62704")])]

/-- The record parseJsonLd extracts from c6Snippet. -/
def c6Rec : LdRec :=
  { price := 500000, address := "1 Main St, Springfield, IL, 62704",
    beds := 0, baths := 0, sqft := 0, propertyType := "SingleFamilyResidence" }

/-- A page whose only structured snippet is c6Snippet and whose selector
queries all come back empty. -/
def c1wPage : Page :=
  { ldScripts := [some c6Snippet], query := fun _ => "", bodyText := "", homeAnchors := [] }

/-- A snippet of type House with price 450000 whose bed, bath and area
fields are absent (hence 0 after the defaults of route.ts 100-102). -/
def c1Snippet : Jval :=
  .obj [("@type", .str "House"),
        ("offers", .obj [("price", .num 450000)]),
        ("address", .obj [("streetAddress", .str "5 Oak Ave")])]

/-- A page carrying c1Snippet while its bed-bath-beyond selector text
holds parseable details. -/
def c1Page : Page :=
  { ldScripts := [some c1Snippet]
    query := fun sel =>
      if sel = "[data-testid=\"bed-bath-beyond\"]" then "3 bed, 2.5 bath, 1,800 sqft" else ""
    bodyText := ""
    homeAnchors := [] }

/-- A page with a positive selector price whose address selector text is
literally the failure sentinel. -/
def c2Page : Page :=
  { ldScripts := []
    query := fun sel =>
      if sel = "[data-testid=\"price\"]" then "$500,000"
      else if sel = "[data-testid=\"address\"]" then "Address not found"
      else ""
    bodyText := ""
    homeAnchors := [] }

/-- A page with a positive selector price and an ordinary address. -/
def c2wPage : Page :=
  { ldScripts := []
    query := fun sel =>
      if sel = "[data-testid=\"price\"]" then "$500,000"
      else if sel = "[data-testid=\"address\"]" then "1 Elm St, Springfield, IL 62704"
      else ""
    bodyText := ""
    homeAnchors := [] }

/-- A Redfin page with no structured data, empty price selectors, an
address from its selector, and a Redfin Estimate in the page text. -/
def c10Page : Page :=
  { ldScripts := []
    query := fun sel => if sel = ".street-address" then "9 Pine Rd, Springfield, IL 62704" else ""
    bodyText := "OFF MARKET Redfin Estimate $123,456 for this home"
    homeAnchors := [] }

/-- A page on which the two Zillow selector profiles disagree: only the
tier-1 price selector has text, and the tier-2 chain starts elsewhere. -/
def c4SelPage : Page :=
  { ldScripts := []
    query := fun sel => if sel = "[data-testid=\"price\"]" then "$1" else ""
    bodyText := ""
    homeAnchors := [] }

/-- A page with nothing on it. -/
def emptyPage : Page :=
  { ldScripts := [], query := fun _ => "", bodyText := "", homeAnchors := [] }

/-- A failing tier outcome. -/
def tierFail : Except String PropertyData := .error "boom"

/-- A successful tier outcome. -/
def sampleRecord : PropertyData :=
  { price := 500000, address := "1 Main St", beds := 3, baths := 2, sqft := 1500,
    propertyType := "House", url := "https://www.zillow.com/a" }

/-! ### Theorems -/

/-- C1, counterexample: on a page whose structured snippet matches (type
House, price 450000) but carries no bed, bath or area fields — so the
structured values are 0 — while the bed-bath-beyond selector text parses
to beds 3, the Zillow extractor keeps the structured 0 instead of the
selector-heuristic value, refuting the claim that a structured beds = 0
falls back to the selector heuristic. -/
theorem c1_beds_zero_counterexample :
    (parseJsonLd c1Page.ldScripts).map LdRec.beds = some 0 ∧
    (parsePropertyDetails (zillowBedsText c1Page)).beds = 3 ∧
    zillowBedsVal c1Page = 0 := by
  refine ⟨by decide, by decide, by decide⟩

/-- C1, amended: price and address do prefer the structured value only
when positive respectively non-empty, falling back to the selector
chains; but beds, baths and area take the structured values verbatim
(even when 0) whenever a structured record matched, the selector
heuristic being used only when no snippet matched — except that the
Redfin extractor re-derives all three from page-text regexes when they
are all 0. -/
theorem c1_field_preference (p : Page) (r : LdRec)
    (h : parseJsonLd p.ldScripts = some r) :
    (zillowBedsVal p = r.beds ∧ zillowBathsVal p = r.baths ∧ zillowSqftVal p = r.sqft) ∧
    (zillowAltBedsVal p = r.beds ∧ zillowAltBathsVal p = r.baths ∧ zillowAltSqftVal p = r.sqft) ∧
    (homesBedsVal p = r.beds ∧ homesBathsVal p = r.baths ∧ homesSqftVal p = r.sqft) ∧
    (zillowPriceVal p = if 0 < r.price then r.price else parsePrice (zillowPriceText p)) ∧
    (homesPriceVal p = if 0 < r.price then r.price else parsePrice (homesPriceText p)) ∧
    (redfinPriceVal p = if 0 < r.price then r.price else parsePrice (redfinPriceText p)) ∧
    (r.address ≠ "" → zillowAddressVal p = r.address ∧ homesAddressVal p = r.address) ∧
    (¬(r.beds = 0 ∧ r.baths = 0 ∧ r.sqft = 0) →
      redfinDetailsVals p = (r.beds, r.baths, r.sqft)) := by
  refine ⟨⟨?_, ?_, ?_⟩, ⟨?_, ?_, ?_⟩, ⟨?_, ?_, ?_⟩, ?_, ?_, ?_, ?_, ?_⟩
  · simp [zillowBedsVal, h]
  · simp [zillowBathsVal, h]
  · simp [zillowSqftVal, h]
  · simp [zillowAltBedsVal, h]
  · simp [zillowAltBathsVal, h]
  · simp [zillowAltSqftVal, h]
  · simp [homesBedsVal, h]
  · simp [homesBathsVal, h]
  · simp [homesSqftVal, h]
  · simp [zillowPriceVal, h]
  · simp [homesPriceVal, h]
  · simp [redfinPriceVal, h]
  · intro ha
    constructor
    · simp [zillowAddressVal, h, orS, ha]
    · simp [homesAddressVal, h, orS, ha]
  · intro hnz
    simp only [redfinDetailsVals, h]
    rw [if_neg]
    intro hc
    exact hnz hc.1

/-- C1, witness for the amended statement at the concrete page carrying
c6Snippet. -/
theorem c1_field_preference_witness :
    zillowBedsVal c1wPage = c6Rec.beds ∧ zillowBathsVal c1wPage = c6Rec.baths ∧
    zillowSqftVal c1wPage = c6Rec.sqft :=
  (c1_field_preference c1wPage c6Rec (by decide)).1

/-- C2, counterexample: a page with a positive selector price whose
address selector text is literally the sentinel string; the assembled
address is non-empty, yet the extractor fails. -/
theorem c2_sentinel_counterexample :
    0 < zillowPriceVal c2Page ∧
    zillowAddressVal c2Page ≠ "" ∧
    scrapeZillow "https://www.zillow.com/x" c2Page =
      .error "Unable to extract property data. Zillow may be blocking requests." := by
  refine ⟨by decide, by decide, by rfl⟩

/-- C2, amended: every extractor returns a record whenever the assembled
price is positive and the assembled address differs from the sentinel
string Address not found (the sentinel, not the empty string, is the
failure mark the source tests at route.ts 268, 332, 567 and 631). -/
theorem c2_extractors_succeed (url : String) (p : Page) :
    (0 < zillowPriceVal p → zillowAddressVal p ≠ "Address not found" →
      ∃ d, scrapeZillow url p = .ok d) ∧
    (0 < zillowAltPriceVal p → zillowAltAddressVal p ≠ "Address not found" →
      ∃ d, scrapeZillowAlternative url p = .ok d) ∧
    (0 < redfinPriceVal p → redfinAddressVal p ≠ "Address not found" →
      ∃ d, scrapeRedfin url p = .ok d) ∧
    (0 < homesPriceVal p → homesAddressVal p ≠ "Address not found" →
      ∃ d, scrapeHomes url p = .ok d) := by
  refine ⟨fun hp ha => ?_, fun hp ha => ?_, fun hp ha => ?_, fun hp ha => ?_⟩
  · have hc : ¬(zillowPriceVal p = 0 ∨ zillowAddressVal p = "Address not found") := by
      push_neg
      exact ⟨ne_of_gt hp, ha⟩
    exact ⟨_, by unfold scrapeZillow; rw [if_neg hc]⟩
  · have hc : ¬(zillowAltPriceVal p = 0 ∨ zillowAltAddressVal p = "Address not found") := by
      push_neg
      exact ⟨ne_of_gt hp, ha⟩
    exact ⟨_, by unfold scrapeZillowAlternative; rw [if_neg hc]⟩
  · have hc : ¬(redfinPriceVal p = 0 ∨ redfinAddressVal p = "Address not found") := by
      push_neg
      exact ⟨ne_of_gt hp, ha⟩
    exact ⟨_, by unfold scrapeRedfin; rw [if_neg hc]⟩
  · have hc : ¬(homesPriceVal p = 0 ∨ homesAddressVal p = "Address not found") := by
      push_neg
      exact ⟨ne_of_gt hp, ha⟩
    exact ⟨_, by unfold scrapeHomes; rw [if_neg hc]⟩

/-- C2, witness at a page with price 500000 and an ordinary address. -/
theorem c2_extractors_succeed_witness :
    ∃ d, scrapeZillow "https://www.zillow.com/x" c2wPage = .ok d :=
  (c2_extractors_succeed "https://www.zillow.com/x" c2wPage).1 (by decide) (by decide)

/-- C3, counterexample: with every tier failing, the Zillow chain makes
three extraction attempts while the Redfin and Homes chains each make
exactly one — so exactly one platform (Zillow), not two, proceeds to an
alternate tier-2 profile after tier-1 failure. -/
theorem c3_counterexample :
    (POST (some "https://www.zillow.com/a") tierFail tierFail tierFail tierFail tierFail).2 =
      [TierCall.zillow1, TierCall.zillow2, TierCall.zillow3] ∧
    (POST (some "https://www.redfin.com/a") tierFail tierFail tierFail tierFail tierFail).2 =
      [TierCall.redfin1] ∧
    (POST (some "https://www.homes.com/a") tierFail tierFail tierFail tierFail tierFail).2 =
      [TierCall.homes1] := by
  refine ⟨by decide, by decide, by decide⟩

/-- C3, amended: exactly one platform, Zillow, exposes an alternate
extraction profile (different selector chains, different header and
delay profile) that the orchestrator attempts as tier 2 after tier-1
failure; for Redfin and Homes tier-1 failure is terminal and the failure
reason is surfaced in the response error. -/
theorem c3_single_alternate_profile :
    (zillowHeaders ≠ zillowAlternativeHeaders ∧
     zillowDelayWindow ≠ zillowAlternativeDelayWindow ∧
     zillowPriceText c4SelPage ≠ zillowAltPriceText c4SelPage) ∧
    (∀ (u e1 : String) (z2 z3 r1 h1 : Except String PropertyData),
      strIncludes u "zillow.com" = true →
      TierCall.zillow2 ∈ (POST (some u) (.error e1) z2 z3 r1 h1).2) ∧
    (∀ (u : String) (z1 z2 z3 r1 h1 : Except String PropertyData),
      strIncludes u "zillow.com" = false → strIncludes u "redfin.com" = true →
      (POST (some u) z1 z2 z3 r1 h1).2 = [TierCall.redfin1] ∧
      ∀ e, r1 = .error e →
        (POST (some u) z1 z2 z3 r1 h1).1 =
          { success := false, error := some ("Redfin scraping failed: " ++ e) }) ∧
    (∀ (u : String) (z1 z2 z3 r1 h1 : Except String PropertyData),
      strIncludes u "zillow.com" = false → strIncludes u "redfin.com" = false →
      strIncludes u "homes.com" = true →
      (POST (some u) z1 z2 z3 r1 h1).2 = [TierCall.homes1] ∧
      ∀ e, h1 = .error e →
        (POST (some u) z1 z2 z3 r1 h1).1 =
          { success := false, error := some ("Homes.com scraping failed: " ++ e) }) := by
  refine ⟨⟨by decide, by decide, by decide⟩, ?_, ?_, ?_⟩
  · intro u e1 z2 z3 r1 h1 hz
    have hu : u ≠ "" := by
      intro h
      subst h
      exact absurd hz (by decide)
    simp only [POST]
    rw [if_neg hu, if_pos hz]
    cases z2 with
    | ok d => cases z3 <;> simp
    | error e => cases z3 <;> simp
  · intro u z1 z2 z3 r1 h1 hz hr
    have hu : u ≠ "" := by
      intro h
      subst h
      exact absurd hr (by decide)
    simp only [POST]
    rw [if_neg hu, if_neg (by simp [hz]), if_pos hr]
    cases r1 with
    | ok d => exact ⟨rfl, fun e he => by cases he⟩
    | error e => exact ⟨rfl, fun e2 he => by cases he; rfl⟩
  · intro u z1 z2 z3 r1 h1 hz hr hh
    have hu : u ≠ "" := by
      intro h
      subst h
      exact absurd hh (by decide)
    simp only [POST]
    rw [if_neg hu, if_neg (by simp [hz]), if_neg (by simp [hr]), if_pos hh]
    cases h1 with
    | ok d => exact ⟨rfl, fun e he => by cases he⟩
    | error e => exact ⟨rfl, fun e2 he => by cases he; rfl⟩

/-- C3, witness: the amended statement applied to a Redfin URL whose
single tier fails. -/
theorem c3_single_alternate_profile_witness :
    (POST (some "https://www.redfin.com/a") tierFail tierFail tierFail tierFail tierFail).2 =
      [TierCall.redfin1] ∧
    (POST (some "https://www.redfin.com/a") tierFail tierFail tierFail tierFail tierFail).1 =
      { success := false, error := some ("Redfin scraping failed: " ++ "boom") } := by
  have h := c3_single_alternate_profile.2.2.1 "https://www.redfin.com/a"
    tierFail tierFail tierFail tierFail tierFail (by decide) (by decide)
  exact ⟨h.1, h.2 "boom" rfl⟩

/-- C4: once the Zillow tier 1 has failed, the orchestrator always calls
tier 2 (whose header, delay and selector profiles differ from tier 1),
calls the headless tier after a tier-2 failure, and answers success
exactly when tier 2 or tier 3 produced a record — never from the tier-1
failure itself. -/
theorem c4_zillow_escalation (u e1 : String) (z2 z3 r1 h1 : Except String PropertyData)
    (hz : strIncludes u "zillow.com" = true) :
    (zillowHeaders ≠ zillowAlternativeHeaders ∧
     zillowPriceText c4SelPage ≠ zillowAltPriceText c4SelPage) ∧
    TierCall.zillow2 ∈ (POST (some u) (.error e1) z2 z3 r1 h1).2 ∧
    (∀ e2, z2 = .error e2 → TierCall.zillow3 ∈ (POST (some u) (.error e1) z2 z3 r1 h1).2) ∧
    ((POST (some u) (.error e1) z2 z3 r1 h1).1.success = true ↔
      ∃ d, (POST (some u) (.error e1) z2 z3 r1 h1).1.data = some d ∧
        (z2 = .ok d ∨ ((∃ e2, z2 = .error e2) ∧ z3 = .ok d))) := by
  have hu : u ≠ "" := by
    intro h
    subst h
    exact absurd hz (by decide)
  refine ⟨⟨by decide, by decide⟩, ?_⟩
  simp only [POST]
  rw [if_neg hu, if_pos hz]
  cases z2 with
  | ok d2 =>
    refine ⟨by simp, ?_, ?_⟩
    · intro e2 he
      cases he
    · constructor
      · intro _
        exact ⟨d2, rfl, Or.inl rfl⟩
      · intro _
        rfl
  | error e2 =>
    cases z3 with
    | ok d3 =>
      refine ⟨by simp, ?_, ?_⟩
      · intro _ _
        simp
      · constructor
        · intro _
          exact ⟨d3, rfl, Or.inr ⟨⟨e2, rfl⟩, rfl⟩⟩
        · intro _
          rfl
    | error e3 =>
      refine ⟨by simp, ?_, ?_⟩
      · intro _ _
        simp
      · simp

/-- C4, witness: a Zillow URL whose tier 1 and tier 2 fail and whose
headless tier succeeds. -/
theorem c4_zillow_escalation_witness :
    TierCall.zillow2 ∈ (POST (some "https://www.zillow.com/a") (.error "blocked")
      (.error "blocked") (.ok sampleRecord) tierFail tierFail).2 :=
  (c4_zillow_escalation "https://www.zillow.com/a" "blocked" (.error "blocked")
    (.ok sampleRecord) tierFail tierFail (by decide)).2.1

/-- C5: whenever the browser launch succeeded, every execution path of
the headless tier — navigation error or timeout, extraction failure,
success — closes the browser before returning or propagating the error;
a failed launch never created a browser to close. -/
theorem c5_browser_always_closed (env : PupEnv) (h : env.launch = .ok ()) :
    (scrapeWithPuppeteer env).closedBrowser = true := by
  simp only [scrapeWithPuppeteer, h]
  cases hn : env.nav with
  | error e => simp [hn]
  | ok v =>
    simp only [hn]
    split
    · rfl
    · rfl

/-- C5, witness: a forced navigation timeout still closes the browser. -/
theorem c5_browser_always_closed_witness :
    (scrapeWithPuppeteer
      { launch := .ok (), nav := .error "Navigation timeout of 30000 ms exceeded",
        dom := emptyPage, finalHref := "" }).closedBrowser = true :=
  c5_browser_always_closed _ rfl

/-- C6: on a page whose script-tagged snippet declares type
SingleFamilyResidence with offers.price 500000 and the four address
sub-fields, the structured-data extractor returns price 500000 and the
address joined from the sub-fields with comma-space separators. -/
theorem c6_structured_extraction :
    (parseJsonLd [some c6Snippet]).map LdRec.price = some 500000 ∧
    (parseJsonLd [some c6Snippet]).map LdRec.address =
      some "1 Main St, Springfield, IL, 62704" := by
  refine ⟨by decide, by decide⟩

/-- C7: for every body and status, the block detector answers true
exactly when the status is 403 or 429, or the body is empty, or the
lower-cased body contains one of the fixed phrases (including the
reverse-proxy challenge marker cf-chl); in particular a 200-status
non-empty body free of the phrases yields false. -/
theorem c7_block_detector (html : String) (st : Nat) :
    isBlocked html (some st) =
      (st == 403 || st == 429 || html == "" || containsBlockPhrase (strToLower html)) := by
  unfold isBlocked
  by_cases h : html = ""
  · subst h
    simp
  · rw [if_neg h]
    by_cases h4 : st = 403
    · subst h4
      simp
    · by_cases h9 : st = 429
      · subst h9
        simp
      · have e4 : (st == 403) = false := by simp [h4]
        have e9 : (st == 429) = false := by simp [h9]
        simp [e4, e9, h]

/-- C8: detail parsing maps the text 3 bed, 2.5 bath, 1,800 sqft to
beds 3, baths 5/2 and area 1800, and maps Studio, which matches none of
the patterns, to all zeros. -/
theorem c8_detail_parsing :
    parsePropertyDetails "3 bed, 2.5 bath, 1,800 sqft" =
      { beds := 3, baths := mkRat 5 2, sqft := 1800 } ∧
    parsePropertyDetails "Studio" = { beds := 0, baths := 0, sqft := 0 } := by
  refine ⟨by decide, by decide⟩

/-- C9, counterexample: the empty URL contains none of the three platform
domains, yet the endpoint answers the URL-required failure, not the
unsupported-source failure (still with zero scraper calls). -/
theorem c9_counterexample :
    strIncludes "" "zillow.com" = false ∧ strIncludes "" "redfin.com" = false ∧
    strIncludes "" "homes.com" = false ∧
    POST (some "") tierFail tierFail tierFail tierFail tierFail =
      ({ success := false, error := some "URL is required" }, []) := by
  refine ⟨by decide, by decide, by decide, by decide⟩

/-- C9, amended: for every non-empty URL containing none of the three
supported platform domains, the endpoint immediately returns the
unsupported-source failure and makes zero scraper (hence network)
calls. -/
theorem c9_unsupported_source (u : String) (z1 z2 z3 r1 h1 : Except String PropertyData)
    (hne : u ≠ "")
    (hz : strIncludes u "zillow.com" = false)
    (hr : strIncludes u "redfin.com" = false)
    (hh : strIncludes u "homes.com" = false) :
    POST (some u) z1 z2 z3 r1 h1 =
      ({ success := false,
         error := some "Unsupported URL. Please use Zillow, Redfin, or Homes.com" }, []) := by
  simp only [POST]
  rw [if_neg hne, if_neg (by simp [hz]), if_neg (by simp [hr]), if_neg (by simp [hh])]

/-- C9, witness at an unsupported domain. -/
theorem c9_unsupported_source_witness :
    POST (some "https://example.com/listing") tierFail tierFail tierFail tierFail tierFail =
      ({ success := false,
         error := some "Unsupported URL. Please use Zillow, Redfin, or Homes.com" }, []) :=
  c9_unsupported_source "https://example.com/listing" tierFail tierFail tierFail tierFail
    tierFail (by decide) (by decide) (by decide) (by decide)

/-- C10: when the structured data yields no positive price and the price
selectors parse to 0 while the page text carries a Redfin Estimate
match, the price of the Redfin record is the estimate value — the
valuation estimate becomes the reported listing price. -/
theorem c10_estimate_becomes_price (url : String) (p : Page) (cap : String)
    (h1 : ∀ r, parseJsonLd p.ldScripts = some r → ¬ 0 < r.price)
    (h2 : parsePrice (redfinPriceText0 p) = 0)
    (h3 : redfinPageText p ≠ "")
    (h4 : estimateCapture (redfinPageText p) = some cap) :
    redfinPriceVal p = parsePrice ("$" ++ cap) ∧
    ∀ d, scrapeRedfin url p = .ok d → d.price = parsePrice ("$" ++ cap) := by
  have ht : redfinPriceText p = "$" ++ cap := by
    simp only [redfinPriceText]
    rw [if_pos ⟨Or.inr h2, h3⟩]
    simp only [h4]
  have hv : redfinPriceVal p = parsePrice ("$" ++ cap) := by
    simp only [redfinPriceVal]
    cases hj : parseJsonLd p.ldScripts with
    | none => rw [ht]
    | some r =>
      dsimp only
      rw [if_neg (h1 r hj), ht]
  refine ⟨hv, ?_⟩
  intro d hd
  simp only [scrapeRedfin] at hd
  split at hd
  · cases hd
  · rw [Except.ok.injEq] at hd
    subst hd
    exact hv

/-- C10, witness: a page whose body reads OFF MARKET Redfin Estimate
$123,456 with empty price selectors takes 123456 as its price. -/
theorem c10_estimate_becomes_price_witness :
    redfinPriceVal c10Page = parsePrice ("$" ++ "123,456") :=
  (c10_estimate_becomes_price "https://www.redfin.com/x" c10Page "123,456"
    (fun r hr => by
      rw [show parseJsonLd c10Page.ldScripts = none from rfl] at hr
      cases hr)
    (by decide) (by decide) (by decide)).1
